import Mathlib

/-!
Verification of the Student-mark-tracker repository against its
natural-language specification.

The repository's files under `src/` are the React/TypeScript frontend
(pages, components, API client, shared types).  The grading engine itself
(report builder, grade classifier, class aggregation, failure detection)
lives in a Python backend (`backend/app/...`) that is not part of the
file snapshot; where a claim is decided by that missing code, the
corresponding definition below is modelled from the specification's own
words and is marked `Modelled from the spec:` in its doc comment.
Definitions embedding frontend code name the source file and lines.

Numbers: the frontend works with JavaScript numbers that are integers in
every code path embedded here, so marks are `Int`; the engine's derived
ratios (percentages, averages, pass rates), which the spec describes as
reals, are embedded as `ℚ` (exact rational arithmetic).
-/

-- Decidable equality of `Except` values, so that concrete runs of the
-- fallible builders can be checked by evaluation.
deriving instance DecidableEq for Except

namespace MarkTracker

/-! ### Frontend data types (src/unnamed/part_000, the shared TypeScript types) -/

/-- The `Subject` interface of the frontend types file (part_000 lines 64-73). -/
structure Subject where
  id : Int
  name : String
  code : String
  max_marks : Int
  pass_marks : Int
  teacher_id : Option Int
  created_at : String
  teacher_name : Option String
  deriving DecidableEq

/-- The `FailedStudent` interface of the frontend types file
(part_000 lines 130-141): the failure-notice rows rendered by the
Failed Students page. -/
structure FailedStudent where
  student_id : Int
  student_name : String
  roll_no : String
  class_name : String
  subject_name : String
  marks_obtained : Int
  max_marks : Int
  pass_marks : Int
  parent_email : Option String
  email_sent : Bool
  deriving DecidableEq

/-! ### Marks entry page (src/frontend/src/pages/Marks.tsx) -/

/-- Status values computed by `getMarkStatus` in Marks.tsx
(the TypeScript returns the strings 'pass' / 'fail'). -/
inductive MarkStatus
  | pass
  | fail
  deriving DecidableEq

/-- The subject lookup `subjects.find((s) => s.id === selectedSubject)`
used by Marks.tsx; `selectedSubject` is `number | null` and `null`
matches no subject. -/
def findSubject (subjects : List Subject) (selectedSubject : Option Int) : Option Subject :=
  subjects.find? fun s => decide (some s.id = selectedSubject)

/-- The effective maximum `subject?.max_marks || 100` of
`handleMarkChange` (Marks.tsx line 78): a missing subject, or a falsy
(zero) max_marks, falls back to 100. -/
def effectiveMax (subject : Option Subject) : Int :=
  match subject with
  | none => 100
  | some s => if s.max_marks = 0 then 100 else s.max_marks

/-- `handleMarkChange` (Marks.tsx lines 72-81): the value a teacher types
is parsed with `parseInt` (modelled as `Option Int`, `none` for NaN); a
NaN or negative value is stored as 0, otherwise the value is stored as
`Math.min(marks, maxMarks)`. -/
def handleMarkChange (parsed : Option Int) (subject : Option Subject) : Int :=
  match parsed with
  | none => 0
  | some marks =>
    if marks < 0 then 0
    else min marks (effectiveMax subject)

/-- `getMarkStatus` (Marks.tsx lines 83-88): looks up the entered mark
and the selected subject; returns `null` when either is missing, else
`marks >= subject.pass_marks ? 'pass' : 'fail'`. -/
def getMarkStatus (marksData : List (Int × Int)) (subjects : List Subject)
    (selectedSubject : Option Int) (studentId : Int) : Option MarkStatus :=
  let marks := (marksData.find? fun p => decide (p.1 = studentId)).map Prod.snd
  match findSubject subjects selectedSubject, marks with
  | some subject, some m =>
    some (if m ≥ subject.pass_marks then MarkStatus.pass else MarkStatus.fail)
  | _, _ => none

/-! ### Subjects page form (src/unnamed/part_004, the Subjects page) -/

/-- The subject form's state (`SubjectCreateRequest` shape used by the
Subjects page; the optional teacher_id is not involved in validation). -/
structure SubjectFormData where
  name : String
  code : String
  max_marks : Int
  pass_marks : Int
  deriving DecidableEq

/-- The guard at the top of `handleSubmit` (part_004 lines 78-99): when
`formData.pass_marks > formData.max_marks` an error toast is shown and
the handler returns before any request is sent; `true` means the
create/update request is sent. -/
def handleSubmitSends (f : SubjectFormData) : Bool :=
  if f.pass_marks > f.max_marks then false else true

/-- The native HTML constraint validation of the form's number inputs
(part_004 lines 232-258): max_marks has min=1 and max=1000, pass_marks
has min=0 and max=formData.max_marks, and both are required; the browser
blocks submission of a form violating these bounds. -/
def subjectFormInputValid (f : SubjectFormData) : Bool :=
  (decide (1 ≤ f.max_marks) && decide (f.max_marks ≤ 1000))
    && (decide (0 ≤ f.pass_marks) && decide (f.pass_marks ≤ f.max_marks))

/-- A subject submission is accepted (a request reaches the backend) when
it passes both the inputs' native validation and the handleSubmit guard. -/
def subjectFormAccepts (f : SubjectFormData) : Bool :=
  subjectFormInputValid f && handleSubmitSends f

/-! ### Failed Students page (src/frontend/src/pages/FailedStudents.tsx) -/

/-- The dispatch indicator a failure row renders. -/
inductive DispatchBadge
  | emailSent
  | noEmail
  deriving DecidableEq

/-- JavaScript truthiness of a `string | null` value: `null` and the
empty string are falsy, every other string is truthy. -/
def strTruthy : Option String → Bool
  | none => false
  | some s => !(decide (s = ""))

/-- The dispatch indicator of a failure row (FailedStudents.tsx lines
159-177): `student.parent_email ? <"Email Sent"> : <"No Email">`; the
row's `email_sent` field is not read anywhere in the component. -/
def dispatchBadge (s : FailedStudent) : DispatchBadge :=
  if strTruthy s.parent_email then DispatchBadge.emailSent else DispatchBadge.noEmail

/-! ### The report and grading engine, modelled from the spec

The backend that implements the engine (`backend/app/...`) is not in the
repository snapshot; every definition in this section is modelled from
the specification's sections 3, 4.1-4.5 and 7. -/

/-- Modelled from the spec: the letter grades of the grade classifier
(spec §4.1), missing backend code. -/
inductive Grade
  | APlus
  | A
  | BPlus
  | B
  | CPlus
  | C
  | D
  | F
  deriving DecidableEq

/-- Rank of a grade, `F` lowest and `A+` highest, used to state
monotonicity of the classifier. -/
def Grade.rank : Grade → Nat
  | Grade.F => 0
  | Grade.D => 1
  | Grade.C => 2
  | Grade.CPlus => 3
  | Grade.B => 4
  | Grade.BPlus => 5
  | Grade.A => 6
  | Grade.APlus => 7

/-- Modelled from the spec: `classify(percentage) -> Grade` (spec §4.1),
missing backend code.  Inclusive lower-bound thresholds, highest first;
total over all rationals, so inputs below 0 fall to F and inputs above
100 rise to A+. -/
def classify (percentage : ℚ) : Grade :=
  if percentage ≥ 90 then Grade.APlus
  else if percentage ≥ 80 then Grade.A
  else if percentage ≥ 70 then Grade.BPlus
  else if percentage ≥ 60 then Grade.B
  else if percentage ≥ 50 then Grade.CPlus
  else if percentage ≥ 40 then Grade.C
  else if percentage ≥ 33 then Grade.D
  else Grade.F

/-- Modelled from the spec: a raw mark row (spec §3 MarkRecord), missing
backend code; the teacher reference is not involved in any claim. -/
structure MarkRecord where
  student_id : Int
  subject_id : Int
  marks_obtained : Int
  exam_type : String
  deriving DecidableEq

/-- Modelled from the spec: a subject definition (spec §3
SubjectDefinition), missing backend code. -/
structure SubjectDefinition where
  id : Int
  name : String
  code : String
  max_marks : Int
  pass_marks : Int
  deriving DecidableEq

/-- Modelled from the spec: a student record as the engine needs it
(spec §3 and the part_000 `Student` interface), missing backend code. -/
structure Student where
  id : Int
  full_name : String
  roll_no : String
  class_name : String
  section_name : String
  parent_email : Option String
  deriving DecidableEq

/-- Pass/Fail status of a subject evaluation or a whole report. -/
inductive SubjStatus
  | Pass
  | Fail
  deriving DecidableEq

/-- Modelled from the spec: the engine's error taxonomy (spec §7),
missing backend code. -/
inductive EngineError
  | invalidInput
  | noDataForExam
  | notFound
  deriving DecidableEq

/-- Modelled from the spec: a subject evaluation (spec §3
SubjectEvaluation), missing backend code. -/
structure SubjectEvaluation where
  subject_name : String
  subject_code : String
  marks_obtained : Int
  max_marks : Int
  pass_marks : Int
  status : SubjStatus
  grade : Grade
  deriving DecidableEq

/-- Modelled from the spec: the subject evaluator (spec §4.2), missing
backend code.  Rejects a mark outside [0, max_marks] with InvalidInput;
otherwise status is Pass iff marks_obtained ≥ pass_marks and the grade
classifies 100 × marks_obtained / max_marks. -/
def evaluate (mark : MarkRecord) (subject : SubjectDefinition) :
    Except EngineError SubjectEvaluation :=
  if mark.marks_obtained < 0 ∨ mark.marks_obtained > subject.max_marks then
    Except.error EngineError.invalidInput
  else
    Except.ok
      { subject_name := subject.name
        subject_code := subject.code
        marks_obtained := mark.marks_obtained
        max_marks := subject.max_marks
        pass_marks := subject.pass_marks
        status :=
          if mark.marks_obtained ≥ subject.pass_marks then SubjStatus.Pass else SubjStatus.Fail
        grade := classify (100 * (mark.marks_obtained : ℚ) / (subject.max_marks : ℚ)) }

/-- The subject mapping supplied by the storage collaborator (spec §6),
as an association list from subject id to definition. -/
def lookupSubject (subs : List (Int × SubjectDefinition)) (sid : Int) :
    Option SubjectDefinition :=
  (subs.find? fun p => decide (p.1 = sid)).map Prod.snd

/-- Error-propagating map over a list: the first error aborts, as the
spec's deterministic pure-failure propagation (spec §7) prescribes. -/
def mapME {α β ε : Type} (f : α → Except ε β) : List α → Except ε (List β)
  | [] => Except.ok []
  | x :: xs =>
    match f x with
    | Except.error e => Except.error e
    | Except.ok y =>
      match mapME f xs with
      | Except.error e => Except.error e
      | Except.ok ys => Except.ok (y :: ys)

/-- Evaluate one mark against the subject mapping: a missing subject is
NotFound (spec §7), otherwise the subject evaluator runs. -/
def evalMark (subs : List (Int × SubjectDefinition)) (m : MarkRecord) :
    Except EngineError SubjectEvaluation :=
  match lookupSubject subs m.subject_id with
  | none => Except.error EngineError.notFound
  | some s => evaluate m s

/-- Deterministic report ordering (spec §4.3): subject code ascending. -/
def codeRel (a b : SubjectEvaluation) : Prop :=
  a.subject_code ≤ b.subject_code

instance : DecidableRel codeRel := fun a b => by
  unfold codeRel
  infer_instance

/-- Modelled from the spec: a student report (spec §3 StudentReport),
missing backend code; student identity and timestamp fields carry no
claim content and are omitted. -/
structure StudentReportM where
  subjects : List SubjectEvaluation
  total_marks : Int
  total_max_marks : Int
  percentage : ℚ
  overall_grade : Grade
  overall_result : SubjStatus
  deriving DecidableEq

/-- Modelled from the spec: assemble a student report from its subject
evaluations (spec §4.3 and §3 StudentReport): totals, a percentage
guarded against a zero total of maximum marks (percentage 0, result
Fail instead of a division error), the overall grade classified from
the percentage, and the strict-AND overall result. -/
def mkStudentReport (evals : List SubjectEvaluation) : StudentReportM :=
  let total : Int := (evals.map (fun e => e.marks_obtained)).sum
  let tmax : Int := (evals.map (fun e => e.max_marks)).sum
  let pct : ℚ := if tmax = 0 then 0 else 100 * (total : ℚ) / (tmax : ℚ)
  { subjects := evals
    total_marks := total
    total_max_marks := tmax
    percentage := pct
    overall_grade := classify pct
    overall_result :=
      if tmax = 0 then SubjStatus.Fail
      else if evals.all fun e => decide (e.status = SubjStatus.Pass) then SubjStatus.Pass
      else SubjStatus.Fail }

/-- Modelled from the spec: the student report builder (spec §4.3),
missing backend code.  Filters the marks to the exam type, fails with
NoDataForExam when none match, evaluates each mark via the subject
evaluator, and assembles the report with evaluations sorted by subject
code ascending. -/
def buildStudentReport (exam_type : String) (marks : List MarkRecord)
    (subs : List (Int × SubjectDefinition)) : Except EngineError StudentReportM :=
  let matching := marks.filter fun m => decide (m.exam_type = exam_type)
  if matching.isEmpty then Except.error EngineError.noDataForExam
  else
    match mapME (evalMark subs) matching with
    | Except.error e => Except.error e
    | Except.ok evals => Except.ok (mkStudentReport (List.insertionSort codeRel evals))

/-- The marks belonging to one student. -/
def studentMarks (marks : List MarkRecord) (sid : Int) : List MarkRecord :=
  marks.filter fun m => decide (m.student_id = sid)

/-- Whether a student has at least one mark matching the exam type
(spec §4.4: only such students enter the class report). -/
def hasDataFor (marks : List MarkRecord) (exam_type : String) (st : Student) : Bool :=
  !((studentMarks marks st.id).filter fun m => decide (m.exam_type = exam_type)).isEmpty

/-- The students included in a class report: those with at least one
matching mark; students with zero marks for the exam type are excluded
(spec §4.4). -/
def includedStudents (students : List Student) (marks : List MarkRecord)
    (exam_type : String) : List Student :=
  students.filter (hasDataFor marks exam_type)

/-- Build a student report per included student, keeping the student
alongside the report. -/
def classPairs (exam_type : String) (students : List Student) (marks : List MarkRecord)
    (subs : List (Int × SubjectDefinition)) :
    Except EngineError (List (Student × StudentReportM)) :=
  mapME
    (fun st =>
      match buildStudentReport exam_type (studentMarks marks st.id) subs with
      | Except.error e => Except.error e
      | Except.ok r => Except.ok (st, r))
    (includedStudents students marks exam_type)

/-- Modelled from the spec: one row of subject-wise statistics (spec §3
ClassReport.subject_wise_stats), missing backend code. -/
structure SubjectStat where
  subject : String
  average : ℚ
  max_marks : Int
  passed : Nat
  failed : Nat
  pass_rate : ℚ
  deriving DecidableEq

/-- Modelled from the spec: per-subject pass rate
100 × passed / (passed + failed), guarded against a zero denominator
(emit 0) (spec §4.4). -/
def passRate (passed failed : Nat) : ℚ :=
  if passed + failed = 0 then 0
  else 100 * (passed : ℚ) / ((passed : ℚ) + (failed : ℚ))

/-- All subject evaluations appearing across the included students'
reports. -/
def allEvals (pairs : List (Student × StudentReportM)) : List SubjectEvaluation :=
  pairs.foldr (fun p acc => p.2.subjects ++ acc) []

/-- Statistics of one subject over the evaluations that took it: the
average is the mean over entered marks only (spec §4.4). -/
def mkSubjectStat (s : SubjectDefinition) (taken : List SubjectEvaluation) : SubjectStat :=
  let passed := (taken.filter fun e => decide (e.status = SubjStatus.Pass)).length
  let failed := (taken.filter fun e => decide (e.status = SubjStatus.Fail)).length
  { subject := s.name
    average :=
      if taken.length = 0 then 0
      else ((taken.map (fun e => e.marks_obtained)).sum : ℚ) / (taken.length : ℚ)
    max_marks := s.max_marks
    passed := passed
    failed := failed
    pass_rate := passRate passed failed }

/-- Subject-wise statistics for every subject appearing in any included
student's report (spec §4.4). -/
def subjectStats (subs : List (Int × SubjectDefinition))
    (pairs : List (Student × StudentReportM)) : List SubjectStat :=
  subs.filterMap fun p =>
    let taken := (allEvals pairs).filter fun e => decide (e.subject_code = p.2.code)
    if taken.isEmpty then none else some (mkSubjectStat p.2 taken)

/-- Modelled from the spec: the ranking order of top performers
(spec §4.4): percentage descending, ties broken by total marks
descending, then by roll number ascending. -/
def rankRel (a b : Student × StudentReportM) : Prop :=
  b.2.percentage < a.2.percentage ∨
    (a.2.percentage = b.2.percentage ∧
      (b.2.total_marks < a.2.total_marks ∨
        (a.2.total_marks = b.2.total_marks ∧ a.1.roll_no ≤ b.1.roll_no)))

instance : DecidableRel rankRel := fun a b => by
  unfold rankRel
  infer_instance

instance : IsTotal (Student × StudentReportM) rankRel := by
  constructor
  intro a b
  unfold rankRel
  rcases lt_trichotomy a.2.percentage b.2.percentage with hp | hp | hp
  · exact Or.inr (Or.inl hp)
  · rcases lt_trichotomy a.2.total_marks b.2.total_marks with ht | ht | ht
    · exact Or.inr (Or.inr ⟨hp.symm, Or.inl ht⟩)
    · rcases le_total a.1.roll_no b.1.roll_no with hr | hr
      · exact Or.inl (Or.inr ⟨hp, Or.inr ⟨ht, hr⟩⟩)
      · exact Or.inr (Or.inr ⟨hp.symm, Or.inr ⟨ht.symm, hr⟩⟩)
    · exact Or.inl (Or.inr ⟨hp, Or.inl ht⟩)
  · exact Or.inl (Or.inl hp)

instance : IsTrans (Student × StudentReportM) rankRel := by
  constructor
  intro a b c hab hbc
  unfold rankRel at hab hbc ⊢
  rcases hab with h1 | ⟨e1, h1⟩
  · rcases hbc with h2 | ⟨e2, h2⟩
    · exact Or.inl (h2.trans h1)
    · exact Or.inl (by rw [← e2]; exact h1)
  · rcases hbc with h2 | ⟨e2, h2⟩
    · exact Or.inl (by rw [e1]; exact h2)
    · refine Or.inr ⟨e1.trans e2, ?_⟩
      rcases h1 with t1 | ⟨f1, t1⟩
      · rcases h2 with t2 | ⟨f2, t2⟩
        · exact Or.inl (t2.trans t1)
        · exact Or.inl (by rw [← f2]; exact t1)
      · rcases h2 with t2 | ⟨f2, t2⟩
        · exact Or.inl (by rw [f1]; exact t2)
        · exact Or.inr ⟨f1.trans f2, t1.trans t2⟩

/-- Modelled from the spec: one ranked top-performer entry (spec §3
ClassReport.top_performers), missing backend code. -/
structure TopPerformer where
  name : String
  roll_no : String
  total : Int
  percentage : ℚ
  grade : Grade
  deriving DecidableEq

/-- The ranking order restated on the emitted top-performer entries. -/
def perfRel (a b : TopPerformer) : Prop :=
  b.percentage < a.percentage ∨
    (a.percentage = b.percentage ∧
      (b.total < a.total ∨ (a.total = b.total ∧ a.roll_no ≤ b.roll_no)))

/-- Project a ranked (student, report) pair to its top-performer entry. -/
def mkPerformer (p : Student × StudentReportM) : TopPerformer :=
  { name := p.1.full_name
    roll_no := p.1.roll_no
    total := p.2.total_marks
    percentage := p.2.percentage
    grade := p.2.overall_grade }

/-- Modelled from the spec: top performers are the stable sort of the
included students by the ranking order, truncated to the first 5
(spec §4.4); `List.insertionSort` is the standard stable sort. -/
def topPerformers (pairs : List (Student × StudentReportM)) : List TopPerformer :=
  ((List.insertionSort rankRel pairs).take 5).map mkPerformer

/-- Modelled from the spec: a class report (spec §3 ClassReport),
missing backend code. -/
structure ClassReportM where
  class_name : String
  section_name : String
  exam_type : String
  total_students : Nat
  passed_students : Nat
  failed_students : Nat
  pass_percentage : ℚ
  subject_wise_stats : List SubjectStat
  top_performers : List TopPerformer
  deriving DecidableEq

/-- Assemble the class report from the included (student, report)
pairs: the pass/fail partition, the pass percentage guarded against an
empty class (emit 0), the subject-wise statistics and the ranked top
performers (spec §4.4). -/
def mkClassReport (class_name section_name exam_type : String)
    (subs : List (Int × SubjectDefinition))
    (pairs : List (Student × StudentReportM)) : ClassReportM :=
  let passed := (pairs.filter fun p => decide (p.2.overall_result = SubjStatus.Pass)).length
  let failed := (pairs.filter fun p => decide (p.2.overall_result = SubjStatus.Fail)).length
  { class_name := class_name
    section_name := section_name
    exam_type := exam_type
    total_students := pairs.length
    passed_students := passed
    failed_students := failed
    pass_percentage :=
      if pairs.length = 0 then 0 else 100 * (passed : ℚ) / (pairs.length : ℚ)
    subject_wise_stats := subjectStats subs pairs
    top_performers := topPerformers pairs }

/-- Modelled from the spec: the class report builder (spec §4.4),
missing backend code. -/
def buildClassReport (class_name section_name exam_type : String)
    (students : List Student) (marks : List MarkRecord)
    (subs : List (Int × SubjectDefinition)) : Except EngineError ClassReportM :=
  match classPairs exam_type students marks subs with
  | Except.error e => Except.error e
  | Except.ok pairs => Except.ok (mkClassReport class_name section_name exam_type subs pairs)

/-! ### Failure notifier trigger, modelled from the spec (§4.5) -/

/-- Modelled from the spec: the optional filters of `detect_failures`
(spec §4.5); an absent filter constrains nothing. -/
structure FailureFilters where
  class_name : Option String
  subject_id : Option Int
  exam_type : Option String
  deriving DecidableEq

/-- The AND-conjunction of the supplied filters (spec §4.5). -/
def matchesFilters (f : FailureFilters) (st : Student) (m : MarkRecord) : Bool :=
  (match f.class_name with
   | none => true
   | some cn => decide (st.class_name = cn))
  && (match f.subject_id with
      | none => true
      | some sid => decide (m.subject_id = sid))
  && (match f.exam_type with
      | none => true
      | some et => decide (m.exam_type = et))

/-- Student lookup in the supplied snapshot. -/
def findStudent (students : List Student) (sid : Int) : Option Student :=
  students.find? fun st => decide (st.id = sid)

/-- The notice emitted for one failing (student, subject) mark, in the
`FailedStudent` shape of part_000; parent_email is copied from the
student record whether or not it is present, and email_sent starts
false (the mailer collaborator sets it later, spec §3/§6). -/
def failureNotice (st : Student) (s : SubjectDefinition) (m : MarkRecord) : FailedStudent :=
  { student_id := st.id
    student_name := st.full_name
    roll_no := st.roll_no
    class_name := st.class_name
    subject_name := s.name
    marks_obtained := m.marks_obtained
    max_marks := s.max_marks
    pass_marks := s.pass_marks
    parent_email := st.parent_email
    email_sent := false }

/-- The notice, if any, a single mark row produces: the subject and
student must resolve, the filters must match, and the mark must be
below the subject's pass marks.  The student's parent_email is never
consulted when deciding whether to emit. -/
def noticeFor (subs : List (Int × SubjectDefinition)) (students : List Student)
    (f : FailureFilters) (m : MarkRecord) : Option FailedStudent :=
  match lookupSubject subs m.subject_id, findStudent students m.student_id with
  | some s, some st =>
    if matchesFilters f st m && decide (m.marks_obtained < s.pass_marks) then
      some (failureNotice st s m)
    else none
  | _, _ => none

/-- Whether a mark row is a failing row under the filters: same
conditions as `noticeFor`, as a plain predicate. -/
def failingMark (subs : List (Int × SubjectDefinition)) (students : List Student)
    (f : FailureFilters) (m : MarkRecord) : Bool :=
  match lookupSubject subs m.subject_id, findStudent students m.student_id with
  | some s, some st => matchesFilters f st m && decide (m.marks_obtained < s.pass_marks)
  | _, _ => false

/-- Modelled from the spec: `detect_failures` (spec §4.5), missing
backend code: one notice per failing mark row that matches the filters,
in input order. -/
def detectFailures (marks : List MarkRecord) (subs : List (Int × SubjectDefinition))
    (students : List Student) (f : FailureFilters) : List FailedStudent :=
  marks.filterMap (noticeFor subs students f)

/-! ### Concrete demonstration data, used by the witness theorems -/

/-- A frontend subject row: Mathematics out of 100, pass at 35. -/
def frontendMath : Subject :=
  { id := 1, name := "Mathematics", code := "MATH101", max_marks := 100,
    pass_marks := 35, teacher_id := none, created_at := "", teacher_name := none }

/-- A subject form submission: Mathematics out of 100, pass at 35. -/
def demoForm : SubjectFormData :=
  { name := "Mathematics", code := "MATH101", max_marks := 100, pass_marks := 35 }

/-- A failure row whose parent_email is the empty string (non-null) and
whose email_sent flag is false. -/
def c10Row : FailedStudent :=
  { student_id := 1, student_name := "Asha", roll_no := "R1", class_name := "10A",
    subject_name := "Mathematics", marks_obtained := 20, max_marks := 100,
    pass_marks := 35, parent_email := some "", email_sent := false }

/-- Engine subject: Mathematics out of 100, pass at 35. -/
def math : SubjectDefinition :=
  { id := 1, name := "Mathematics", code := "MATH101", max_marks := 100, pass_marks := 35 }

/-- Engine subject: English out of 100, pass at 35. -/
def english : SubjectDefinition :=
  { id := 2, name := "English", code := "ENG101", max_marks := 100, pass_marks := 35 }

/-- Student 1 scores 90 in Mathematics on the Final exam. -/
def mMath : MarkRecord :=
  { student_id := 1, subject_id := 1, marks_obtained := 90, exam_type := "Final" }

/-- Student 1 scores 20 in English on the Final exam. -/
def mEng : MarkRecord :=
  { student_id := 1, subject_id := 2, marks_obtained := 20, exam_type := "Final" }

/-- The evaluation of the failing English mark: 20 < 35, grade F. -/
def engEval : SubjectEvaluation :=
  { subject_name := "English", subject_code := "ENG101", marks_obtained := 20,
    max_marks := 100, pass_marks := 35, status := SubjStatus.Fail, grade := Grade.F }

/-- The evaluation of the passing Mathematics mark: 90 ≥ 35, grade A+. -/
def mathEval : SubjectEvaluation :=
  { subject_name := "Mathematics", subject_code := "MATH101", marks_obtained := 90,
    max_marks := 100, pass_marks := 35, status := SubjStatus.Pass, grade := Grade.APlus }

/-- The spec's override scenario: 110/200, percentage 55, overall grade
C+, but overall result Fail because English is below its pass marks. -/
def demoReportC3 : StudentReportM :=
  { subjects := [engEval, mathEval], total_marks := 110, total_max_marks := 200,
    percentage := 55, overall_grade := Grade.CPlus, overall_result := SubjStatus.Fail }

/-- A student with marks on file. -/
def stA : Student :=
  { id := 1, full_name := "Asha", roll_no := "R1", class_name := "10A",
    section_name := "A", parent_email := some "pa@example.com" }

/-- A student without any marks on file. -/
def stB : Student :=
  { id := 2, full_name := "Bala", roll_no := "R2", class_name := "10A",
    section_name := "A", parent_email := none }

/-- Student 1 scores 40 in Mathematics on the Final exam. -/
def mA : MarkRecord :=
  { student_id := 1, subject_id := 1, marks_obtained := 40, exam_type := "Final" }

/-- The evaluation of that mark: 40 ≥ 35, grade C. -/
def evalA : SubjectEvaluation :=
  { subject_name := "Mathematics", subject_code := "MATH101", marks_obtained := 40,
    max_marks := 100, pass_marks := 35, status := SubjStatus.Pass, grade := Grade.C }

/-- The one-subject report of student 1: 40/100, grade C, Pass. -/
def reportA : StudentReportM :=
  { subjects := [evalA], total_marks := 40, total_max_marks := 100,
    percentage := 40, overall_grade := Grade.C, overall_result := SubjStatus.Pass }

/-- The included (student, report) pairs of the one-student class. -/
def demoPairsA : List (Student × StudentReportM) := [(stA, reportA)]

/-- The class report of the one-student class. -/
def classA : ClassReportM :=
  { class_name := "10A", section_name := "A", exam_type := "Final",
    total_students := 1, passed_students := 1, failed_students := 0,
    pass_percentage := 100,
    subject_wise_stats := [{ subject := "Mathematics", average := 40, max_marks := 100,
                             passed := 1, failed := 0, pass_rate := 100 }],
    top_performers := [{ name := "Asha", roll_no := "R1", total := 40,
                         percentage := 40, grade := Grade.C }] }

/-- A pathological subject whose maximum is zero marks. -/
def zeroSubject : SubjectDefinition :=
  { id := 9, name := "Void", code := "VOID0", max_marks := 0, pass_marks := 0 }

/-- The only in-range mark for the zero-maximum subject. -/
def mZero : MarkRecord :=
  { student_id := 1, subject_id := 9, marks_obtained := 0, exam_type := "Final" }

/-- Its evaluation: 0 ≥ 0 passes the subject, classifier at 0 gives F. -/
def zeroEval : SubjectEvaluation :=
  { subject_name := "Void", subject_code := "VOID0", marks_obtained := 0,
    max_marks := 0, pass_marks := 0, status := SubjStatus.Pass, grade := Grade.F }

/-- The report over the zero-maximum subject: the guard yields
percentage 0, grade F and result Fail instead of dividing by zero. -/
def zeroReport : StudentReportM :=
  { subjects := [zeroEval], total_marks := 0, total_max_marks := 0,
    percentage := 0, overall_grade := Grade.F, overall_result := SubjStatus.Fail }

/-- The class report of a class with no included students: every
guarded ratio is 0. -/
def emptyClass : ClassReportM :=
  { class_name := "10A", section_name := "A", exam_type := "Final",
    total_students := 0, passed_students := 0, failed_students := 0,
    pass_percentage := 0, subject_wise_stats := [], top_performers := [] }

/-! ### Theorems: the frontend claims (C1, C2, C9, C10) -/

/-- C1: for every mark record and subject definition with
0 ≤ marks_obtained ≤ max_marks, the subject status computed by the
marks page (`getMarkStatus`) is Pass if and only if
marks_obtained ≥ pass_marks; obtaining exactly pass_marks is a Pass. -/
theorem C1_pass_iff (marksData : List (Int × Int)) (subjects : List Subject)
    (sel : Option Int) (sid : Int) (subject : Subject) (m : Int)
    (hs : findSubject subjects sel = some subject)
    (hm : (marksData.find? fun p => decide (p.1 = sid)).map Prod.snd = some m)
    (_h0 : 0 ≤ m) (_hmax : m ≤ subject.max_marks) :
    (getMarkStatus marksData subjects sel sid = some MarkStatus.pass
      ↔ subject.pass_marks ≤ m)
    ∧ (m = subject.pass_marks →
        getMarkStatus marksData subjects sel sid = some MarkStatus.pass) := by
  have hg : getMarkStatus marksData subjects sel sid
      = some (if m ≥ subject.pass_marks then MarkStatus.pass else MarkStatus.fail) := by
    unfold getMarkStatus
    rw [hs, hm]
  constructor
  · rw [hg]
    by_cases hge : m ≥ subject.pass_marks
    · rw [if_pos hge]
      exact ⟨fun _ => hge, fun _ => rfl⟩
    · rw [if_neg hge]
      exact ⟨fun hcon => absurd (Option.some.inj hcon) (by simp),
        fun hle => absurd hle hge⟩
  · intro hm2
    rw [hg, if_pos hm2.ge]

/-- C1 witness: a student whose mark equals the pass marks (35 out of
100, pass at 35) is a Pass on the marks page. -/
theorem C1_witness :
    (getMarkStatus [(1, 35)] [frontendMath] (some 1) 1 = some MarkStatus.pass
      ↔ frontendMath.pass_marks ≤ 35)
    ∧ (35 = frontendMath.pass_marks →
        getMarkStatus [(1, 35)] [frontendMath] (some 1) 1 = some MarkStatus.pass) :=
  C1_pass_iff [(1, 35)] [frontendMath] (some 1) 1 frontendMath 35
    (by with_unfolding_all decide) (by with_unfolding_all decide)
    (by decide) (by with_unfolding_all decide)

/-- C2 counterexample: the claim says a mark value above the subject's
max_marks fails with an InvalidInput error and is never silently
clamped into [0, max_marks]; but the mark-entry handler of the marks
page stores the value 150 for a subject with max_marks 100 as 100 — an
in-range value, with no error path at all. -/
theorem C2_counterexample :
    frontendMath.max_marks < 150
    ∧ handleMarkChange (some 150) (some frontendMath) = frontendMath.max_marks
    ∧ 0 ≤ handleMarkChange (some 150) (some frontendMath)
    ∧ handleMarkChange (some 150) (some frontendMath) ≤ frontendMath.max_marks := by
  with_unfolding_all decide

/-- C2 (as amended): for every mark input at teacher entry, the handler
clamps instead of failing — a value above max_marks is stored as
max_marks, a negative (or non-numeric) value is stored as 0, and the
stored value always lies in [0, max_marks]; no error is surfaced. -/
theorem C2_entry_clamps (parsed : Option Int) (s : Subject) (hmax : 0 < s.max_marks) :
    (0 ≤ handleMarkChange parsed (some s)
      ∧ handleMarkChange parsed (some s) ≤ s.max_marks)
    ∧ (∀ v : Int, s.max_marks < v → handleMarkChange (some v) (some s) = s.max_marks)
    ∧ (∀ v : Int, v < 0 → handleMarkChange (some v) (some s) = 0) := by
  have hem : effectiveMax (some s) = s.max_marks := by
    show (if s.max_marks = 0 then (100 : Int) else s.max_marks) = s.max_marks
    rw [if_neg (by omega)]
  refine ⟨?_, ?_, ?_⟩
  · cases parsed with
    | none =>
      constructor
      · exact le_refl 0
      · exact le_of_lt hmax
    | some v =>
      show (0 ≤ if v < 0 then 0 else min v (effectiveMax (some s)))
        ∧ (if v < 0 then 0 else min v (effectiveMax (some s))) ≤ s.max_marks
      rw [hem]
      by_cases hv : v < 0
      · rw [if_pos hv]
        exact ⟨le_refl 0, le_of_lt hmax⟩
      · rw [if_neg hv]
        omega
  · intro v hv
    show (if v < 0 then 0 else min v (effectiveMax (some s))) = s.max_marks
    rw [hem, if_neg (by omega)]
    omega
  · intro v hv
    show (if v < 0 then 0 else min v (effectiveMax (some s))) = 0
    rw [if_pos hv]

/-- C2 witness: with the Mathematics subject (max 100) the stored value
is always in [0, 100], an over-maximum entry is stored as 100 and a
negative entry as 0. -/
theorem C2_witness :
    (0 ≤ handleMarkChange (some 150) (some frontendMath)
      ∧ handleMarkChange (some 150) (some frontendMath) ≤ frontendMath.max_marks)
    ∧ (∀ v : Int, frontendMath.max_marks < v →
        handleMarkChange (some v) (some frontendMath) = frontendMath.max_marks)
    ∧ (∀ v : Int, v < 0 → handleMarkChange (some v) (some frontendMath) = 0) :=
  C2_entry_clamps (some 150) frontendMath (by with_unfolding_all decide)

/-- C9: every subject submission the form accepts satisfies
0 ≤ pass_marks ≤ max_marks, and a submission with
pass_marks > max_marks is stopped by the handleSubmit guard before any
request is sent. -/
theorem C9_subject_form_invariant (f : SubjectFormData)
    (h : subjectFormAccepts f = true) :
    (0 ≤ f.pass_marks ∧ f.pass_marks ≤ f.max_marks)
    ∧ ∀ g : SubjectFormData, g.max_marks < g.pass_marks → handleSubmitSends g = false := by
  constructor
  · unfold subjectFormAccepts subjectFormInputValid at h
    simp only [Bool.and_eq_true, decide_eq_true_eq] at h
    exact ⟨h.1.2.1, h.1.2.2⟩
  · intro g hg
    unfold handleSubmitSends
    rw [if_pos hg]

/-- C9 witness: the Mathematics form submission (max 100, pass 35) is
accepted and satisfies the invariant. -/
theorem C9_witness :
    (0 ≤ demoForm.pass_marks ∧ demoForm.pass_marks ≤ demoForm.max_marks)
    ∧ ∀ g : SubjectFormData, g.max_marks < g.pass_marks → handleSubmitSends g = false :=
  C9_subject_form_invariant demoForm (by with_unfolding_all decide)

/-- C10 counterexample: the claim says the dispatch indicator depends
only on whether parent_email is non-null; but a row whose parent_email
is the empty string — non-null — renders "No Email", because the
component tests JavaScript truthiness, not nullness. -/
theorem C10_counterexample :
    c10Row.parent_email ≠ none
    ∧ dispatchBadge c10Row = DispatchBadge.noEmail := by
  with_unfolding_all decide

/-- C10 (as amended): the dispatch indicator depends only on whether
parent_email is truthy (non-null and non-empty): a truthy parent_email
renders "Email Sent" no matter what email_sent holds, anything else
renders "No Email", and the email_sent field is never consulted. -/
theorem C10_badge_truthiness (s : FailedStudent) (b : Bool) :
    (dispatchBadge s = DispatchBadge.emailSent ↔ strTruthy s.parent_email = true)
    ∧ dispatchBadge { s with email_sent := b } = dispatchBadge s
    ∧ (strTruthy s.parent_email = false → dispatchBadge s = DispatchBadge.noEmail) := by
  refine ⟨?_, rfl, ?_⟩
  · unfold dispatchBadge
    by_cases ht : strTruthy s.parent_email = true
    · rw [if_pos ht]
      exact ⟨fun _ => ht, fun _ => rfl⟩
    · rw [if_neg ht]
      exact ⟨fun hcon => absurd hcon (by simp), fun ht2 => absurd ht2 ht⟩
  · intro hf
    unfold dispatchBadge
    rw [if_neg (by simp [hf])]

/-! ### Helper lemmas about the engine model -/

/-- A successful `mapME` run keeps the input length. -/
theorem mapME_ok_length {α β ε : Type} {f : α → Except ε β} :
    ∀ {l : List α} {ys : List β}, mapME f l = Except.ok ys → ys.length = l.length := by
  intro l
  induction l with
  | nil =>
    intro ys h
    simp only [mapME, Except.ok.injEq] at h
    rw [← h]
    rfl
  | cons x xs ih =>
    intro ys h
    simp only [mapME] at h
    cases hfx : f x with
    | error e => simp [hfx] at h
    | ok y =>
      simp only [hfx] at h
      cases hmm : mapME f xs with
      | error e => simp [hmm] at h
      | ok ys2 =>
        simp only [hmm, Except.ok.injEq] at h
        rw [← h]
        simp [ih hmm]

/-- Every output of a successful `mapME` run comes from some input. -/
theorem mapME_ok_mem {α β ε : Type} {f : α → Except ε β} :
    ∀ {l : List α} {ys : List β}, mapME f l = Except.ok ys →
      ∀ y ∈ ys, ∃ x ∈ l, f x = Except.ok y := by
  intro l
  induction l with
  | nil =>
    intro ys h y hy
    simp only [mapME, Except.ok.injEq] at h
    rw [← h] at hy
    simp at hy
  | cons x xs ih =>
    intro ys h y hy
    simp only [mapME] at h
    cases hfx : f x with
    | error e => simp [hfx] at h
    | ok y1 =>
      simp only [hfx] at h
      cases hmm : mapME f xs with
      | error e => simp [hmm] at h
      | ok ys2 =>
        simp only [hmm, Except.ok.injEq] at h
        rw [← h] at hy
        rcases List.mem_cons.mp hy with rfl | hy2
        · exact ⟨x, List.mem_cons_self x xs, hfx⟩
        · obtain ⟨x2, hx2, hfx2⟩ := ih hmm y hy2
          exact ⟨x2, List.mem_cons_of_mem x hx2, hfx2⟩

/-- The subjects of an assembled student report. -/
theorem mkStudentReport_subjects (evals : List SubjectEvaluation) :
    (mkStudentReport evals).subjects = evals := rfl

/-- The total of maximum marks of an assembled student report. -/
theorem mkStudentReport_total_max (evals : List SubjectEvaluation) :
    (mkStudentReport evals).total_max_marks = (evals.map (fun e => e.max_marks)).sum := rfl

/-- The guarded percentage of an assembled student report. -/
theorem mkStudentReport_percentage (evals : List SubjectEvaluation) :
    (mkStudentReport evals).percentage =
      if (evals.map (fun e => e.max_marks)).sum = 0 then 0
      else 100 * (((evals.map (fun e => e.marks_obtained)).sum : Int) : ℚ)
        / (((evals.map (fun e => e.max_marks)).sum : Int) : ℚ) := rfl

/-- The overall grade of an assembled student report classifies its
percentage. -/
theorem mkStudentReport_grade (evals : List SubjectEvaluation) :
    (mkStudentReport evals).overall_grade = classify ((mkStudentReport evals).percentage) := rfl

/-- The overall result of an assembled student report. -/
theorem mkStudentReport_result (evals : List SubjectEvaluation) :
    (mkStudentReport evals).overall_result =
      if (evals.map (fun e => e.max_marks)).sum = 0 then SubjStatus.Fail
      else if evals.all fun e => decide (e.status = SubjStatus.Pass) then SubjStatus.Pass
      else SubjStatus.Fail := rfl

/-- The classifier sends 0 to F. -/
theorem classify_zero : classify 0 = Grade.F := by
  with_unfolding_all decide

/-- Inverting a successful student-report build: the report is
assembled from a non-empty evaluation list, every element of which
carries the max_marks of some supplied subject. -/
theorem buildStudentReport_shape {et : String} {marks : List MarkRecord}
    {subs : List (Int × SubjectDefinition)} {r : StudentReportM}
    (h : buildStudentReport et marks subs = Except.ok r) :
    ∃ evals, r = mkStudentReport evals ∧ evals ≠ [] ∧
      ∀ e ∈ evals, ∃ p ∈ subs, e.max_marks = p.2.max_marks := by
  simp only [buildStudentReport] at h
  by_cases hemp : (marks.filter fun m => decide (m.exam_type = et)).isEmpty
  · rw [if_pos hemp] at h
    simp at h
  · rw [if_neg hemp] at h
    cases hmm : mapME (evalMark subs) (marks.filter fun m => decide (m.exam_type = et)) with
    | error e => simp [hmm] at h
    | ok evals =>
      simp only [hmm, Except.ok.injEq] at h
      refine ⟨List.insertionSort codeRel evals, h.symm, ?_, ?_⟩
      · intro hnil
        have h1 : (List.insertionSort codeRel evals).length = 0 := by rw [hnil]; rfl
        rw [(List.perm_insertionSort codeRel evals).length_eq, mapME_ok_length hmm] at h1
        have h2 : (marks.filter fun m => decide (m.exam_type = et)) = [] :=
          List.length_eq_zero.mp h1
        rw [h2] at hemp
        exact hemp rfl
      · intro e he
        have he2 : e ∈ evals := (List.mem_insertionSort codeRel).mp he
        obtain ⟨m, _, hfm⟩ := mapME_ok_mem hmm e he2
        unfold evalMark at hfm
        cases hl : lookupSubject subs m.subject_id with
        | none => simp [hl] at hfm
        | some s =>
          simp only [hl] at hfm
          obtain ⟨p, hp, hps⟩ : ∃ p ∈ subs, p.2 = s := by
            unfold lookupSubject at hl
            cases hf : subs.find? fun p => decide (p.1 = m.subject_id) with
            | none => simp [hf] at hl
            | some p =>
              simp only [hf, Option.map_some', Option.some.injEq] at hl
              exact ⟨p, List.mem_of_find?_eq_some hf, hl⟩
          unfold evaluate at hfm
          by_cases hbad : m.marks_obtained < 0 ∨ m.marks_obtained > s.max_marks
          · rw [if_pos hbad] at hfm
            simp at hfm
          · rw [if_neg hbad] at hfm
            simp only [Except.ok.injEq] at hfm
            refine ⟨p, hp, ?_⟩
            rw [← hfm, hps]

/-- Inverting a successful class-report build: the report is assembled
from the per-student pairs. -/
theorem buildClassReport_shape {cn sec et : String} {students : List Student}
    {marks : List MarkRecord} {subs : List (Int × SubjectDefinition)} {c : ClassReportM}
    (h : buildClassReport cn sec et students marks subs = Except.ok c) :
    ∃ pairs, classPairs et students marks subs = Except.ok pairs ∧
      c = mkClassReport cn sec et subs pairs := by
  unfold buildClassReport at h
  cases hp : classPairs et students marks subs with
  | error e => simp [hp] at h
  | ok pairs =>
    simp only [hp, Except.ok.injEq] at h
    exact ⟨pairs, rfl, h.symm⟩

/-- The total-student count of an assembled class report. -/
theorem mkClassReport_total (cn sec et : String) (subs : List (Int × SubjectDefinition))
    (pairs : List (Student × StudentReportM)) :
    (mkClassReport cn sec et subs pairs).total_students = pairs.length := rfl

/-- The guarded pass percentage of an assembled class report. -/
theorem mkClassReport_pass_percentage (cn sec et : String)
    (subs : List (Int × SubjectDefinition)) (pairs : List (Student × StudentReportM)) :
    (mkClassReport cn sec et subs pairs).pass_percentage =
      if pairs.length = 0 then 0
      else 100 * (((pairs.filter fun p =>
          decide (p.2.overall_result = SubjStatus.Pass)).length : ℚ))
        / ((pairs.length : ℚ)) := rfl

/-- The subject statistics of an assembled class report. -/
theorem mkClassReport_stats (cn sec et : String) (subs : List (Int × SubjectDefinition))
    (pairs : List (Student × StudentReportM)) :
    (mkClassReport cn sec et subs pairs).subject_wise_stats = subjectStats subs pairs := rfl

/-- The top performers of an assembled class report. -/
theorem mkClassReport_top (cn sec et : String) (subs : List (Int × SubjectDefinition))
    (pairs : List (Student × StudentReportM)) :
    (mkClassReport cn sec et subs pairs).top_performers = topPerformers pairs := rfl

/-- The pass rate of one subject statistic is the guarded ratio of its
own pass and fail counts. -/
theorem mkSubjectStat_rate (s : SubjectDefinition) (taken : List SubjectEvaluation) :
    (mkSubjectStat s taken).pass_rate
      = passRate (mkSubjectStat s taken).passed (mkSubjectStat s taken).failed := rfl

/-! ### Theorems: the engine claims (C3-C8), against the spec-modelled engine -/

/-- C3: for every successfully built student report (over subjects with
positive maximum marks, the data-model invariant), the overall result
is Pass if and only if every subject evaluation is Pass; one failing
subject fails the whole report, regardless of the aggregate
percentage. -/
theorem C3_overall_result (et : String) (marks : List MarkRecord)
    (subs : List (Int × SubjectDefinition)) (r : StudentReportM)
    (hpos : ∀ p ∈ subs, 0 < p.2.max_marks)
    (h : buildStudentReport et marks subs = Except.ok r) :
    (r.overall_result = SubjStatus.Pass ↔ ∀ e ∈ r.subjects, e.status = SubjStatus.Pass)
    ∧ ((∃ e ∈ r.subjects, e.status = SubjStatus.Fail) →
        r.overall_result = SubjStatus.Fail) := by
  obtain ⟨evals, rfl, hne, hmax⟩ := buildStudentReport_shape h
  have htm : (0 : Int) < (evals.map fun e => e.max_marks).sum := by
    apply List.sum_pos
    · intro x hx
      obtain ⟨e, he, rfl⟩ := List.mem_map.mp hx
      obtain ⟨p, hp, hpe⟩ := hmax e he
      rw [hpe]
      exact hpos p hp
    · simp [hne]
  have htm0 : ¬((evals.map fun e => e.max_marks).sum = 0) := by omega
  rw [mkStudentReport_result, mkStudentReport_subjects, if_neg htm0]
  constructor
  · by_cases hall : (evals.all fun e => decide (e.status = SubjStatus.Pass)) = true
    · rw [if_pos hall]
      refine ⟨fun _ e he => ?_, fun _ => rfl⟩
      have := List.all_eq_true.mp hall e he
      exact of_decide_eq_true this
    · rw [if_neg hall]
      refine ⟨fun hcon => absurd hcon (by simp), fun hfor => ?_⟩
      exfalso
      apply hall
      apply List.all_eq_true.mpr
      intro e he
      exact decide_eq_true (hfor e he)
  · rintro ⟨e, he, hef⟩
    have hnall : ¬((evals.all fun e => decide (e.status = SubjStatus.Pass)) = true) := by
      intro hall
      have := of_decide_eq_true (List.all_eq_true.mp hall e he)
      rw [hef] at this
      exact SubjStatus.noConfusion this
    rw [if_neg hnall]

/-- C3 witness: the spec's override scenario — 90 in Mathematics and 20
in English give percentage 55 yet the report's result is Fail, because
the English evaluation is a Fail. -/
theorem C3_witness :
    (demoReportC3.overall_result = SubjStatus.Pass
      ↔ ∀ e ∈ demoReportC3.subjects, e.status = SubjStatus.Pass)
    ∧ ((∃ e ∈ demoReportC3.subjects, e.status = SubjStatus.Fail) →
        demoReportC3.overall_result = SubjStatus.Fail) :=
  C3_overall_result "Final" [mMath, mEng] [(1, math), (2, english)] demoReportC3
    (by with_unfolding_all decide) (by with_unfolding_all decide)

set_option maxHeartbeats 1600000 in
/-- C4: the grade classifier is total over every rational input —
inputs below 0 fall to the boundary grade F and inputs above 100 to the
boundary grade A+, never an error — and its grade rank is monotone
non-decreasing in the percentage, with inclusive lower-bound thresholds
at exactly 90, 80, 70, 60, 50, 40 and 33. -/
theorem C4_classify_total_monotone (p q : ℚ) (h : p ≤ q) :
    (classify p).rank ≤ (classify q).rank
    ∧ (∀ x : ℚ, x < 0 → classify x = Grade.F)
    ∧ (∀ x : ℚ, 100 < x → classify x = Grade.APlus)
    ∧ classify 90 = Grade.APlus ∧ classify 80 = Grade.A ∧ classify 70 = Grade.BPlus
    ∧ classify 60 = Grade.B ∧ classify 50 = Grade.CPlus ∧ classify 40 = Grade.C
    ∧ classify 33 = Grade.D ∧ classify 32 = Grade.F := by
  refine ⟨?_, ?_, ?_, ?_, ?_, ?_, ?_, ?_, ?_, ?_, ?_⟩
  · unfold classify
    split_ifs <;> simp only [Grade.rank] <;> first | omega | linarith
  · intro x hx
    unfold classify
    split_ifs <;> first | rfl | (exfalso; linarith)
  · intro x hx
    unfold classify
    split_ifs <;> first | rfl | (exfalso; linarith)
  all_goals with_unfolding_all decide

/-- C4 witness: monotonicity and the boundary behaviour at the concrete
pair 10 ≤ 20. -/
theorem C4_witness :
    (classify 10).rank ≤ (classify 20).rank
    ∧ (∀ x : ℚ, x < 0 → classify x = Grade.F)
    ∧ (∀ x : ℚ, 100 < x → classify x = Grade.APlus)
    ∧ classify 90 = Grade.APlus ∧ classify 80 = Grade.A ∧ classify 70 = Grade.BPlus
    ∧ classify 60 = Grade.B ∧ classify 50 = Grade.CPlus ∧ classify 40 = Grade.C
    ∧ classify 33 = Grade.D ∧ classify 32 = Grade.F :=
  C4_classify_total_monotone 10 20 (by with_unfolding_all decide)

/-- C5: every derived ratio is guarded against a zero denominator and
yields 0 instead of a division error: a report over zero total maximum
marks has percentage 0, grade F and result Fail; a class report over
zero students has pass percentage 0; and a subject statistic whose pass
and fail counts sum to zero has pass rate 0. -/
theorem C5_zero_guards (et cn sec : String) (marks : List MarkRecord)
    (subs : List (Int × SubjectDefinition)) (students : List Student)
    (r : StudentReportM) (c : ClassReportM)
    (hr : buildStudentReport et marks subs = Except.ok r)
    (hc : buildClassReport cn sec et students marks subs = Except.ok c) :
    (r.total_max_marks = 0 →
      r.percentage = 0 ∧ r.overall_grade = Grade.F ∧ r.overall_result = SubjStatus.Fail)
    ∧ (c.total_students = 0 → c.pass_percentage = 0)
    ∧ (∀ st ∈ c.subject_wise_stats, st.passed + st.failed = 0 → st.pass_rate = 0) := by
  obtain ⟨evals, rfl, -, -⟩ := buildStudentReport_shape hr
  obtain ⟨pairs, -, rfl⟩ := buildClassReport_shape hc
  refine ⟨?_, ?_, ?_⟩
  · intro h0
    rw [mkStudentReport_total_max] at h0
    refine ⟨?_, ?_, ?_⟩
    · rw [mkStudentReport_percentage, if_pos h0]
    · rw [mkStudentReport_grade, mkStudentReport_percentage, if_pos h0, classify_zero]
    · rw [mkStudentReport_result, if_pos h0]
  · intro h0
    rw [mkClassReport_total] at h0
    rw [mkClassReport_pass_percentage, if_pos h0]
  · intro st hst h0
    rw [mkClassReport_stats] at hst
    unfold subjectStats at hst
    obtain ⟨p, hp, hpe⟩ := List.mem_filterMap.mp hst
    dsimp only at hpe
    by_cases hti : ((allEvals pairs).filter fun e => decide (e.subject_code = p.2.code)).isEmpty
    · rw [if_pos hti] at hpe
      exact absurd hpe (by simp)
    · rw [if_neg hti] at hpe
      have hst2 : st = mkSubjectStat p.2
          ((allEvals pairs).filter fun e => decide (e.subject_code = p.2.code)) :=
        (Option.some.inj hpe).symm
      rw [hst2] at h0 ⊢
      rw [mkSubjectStat_rate]
      unfold passRate
      rw [if_pos h0]

/-- C5 witness: a report over the zero-maximum subject and a class
report of an empty class both show the guarded zeros. -/
theorem C5_witness :
    (zeroReport.total_max_marks = 0 →
      zeroReport.percentage = 0 ∧ zeroReport.overall_grade = Grade.F
        ∧ zeroReport.overall_result = SubjStatus.Fail)
    ∧ (emptyClass.total_students = 0 → emptyClass.pass_percentage = 0)
    ∧ (∀ st ∈ emptyClass.subject_wise_stats, st.passed + st.failed = 0 →
        st.pass_rate = 0) :=
  C5_zero_guards "Final" "10A" "A" [mZero] [(9, zeroSubject)] [] zeroReport emptyClass
    (by with_unfolding_all decide) (by with_unfolding_all decide)

/-- The emission test of `noticeFor` agrees with the failing-mark
predicate; in particular it never reads the student's parent_email. -/
theorem noticeFor_isSome (subs : List (Int × SubjectDefinition)) (students : List Student)
    (f : FailureFilters) (m : MarkRecord) :
    (noticeFor subs students f m).isSome = failingMark subs students f m := by
  unfold noticeFor failingMark
  cases lookupSubject subs m.subject_id with
  | none => cases findStudent students m.student_id <;> rfl
  | some s =>
    cases findStudent students m.student_id with
    | none => rfl
    | some st =>
      by_cases hc : (matchesFilters f st m && decide (m.marks_obtained < s.pass_marks)) = true
      · simp [hc]
      · simp only [Bool.not_eq_true] at hc
        simp [hc]

/-- `detect_failures` emits exactly one notice per failing mark row. -/
theorem detectFailures_length (marks : List MarkRecord) (subs : List (Int × SubjectDefinition))
    (students : List Student) (f : FailureFilters) :
    (detectFailures marks subs students f).length
      = (marks.filter (failingMark subs students f)).length := by
  unfold detectFailures
  induction marks with
  | nil => rfl
  | cons m ms ih =>
    rw [List.filterMap_cons, List.filter_cons]
    have hiso := (noticeFor_isSome subs students f m).symm
    cases hn : noticeFor subs students f m with
    | none =>
      rw [hn, Option.isSome_none] at hiso
      simp [hiso, ih]
    | some n =>
      rw [hn, Option.isSome_some] at hiso
      simp [hiso, ih]

/-- C6: `detect_failures` returns exactly one notice per failing mark
row matching the AND-conjunction of the filters — a student failing k
subjects yields k notices (one mark row per (student, subject) pair by
the input contract) — every failing row is emitted whether or not the
student record has a parent email, each notice copies the student's
parent_email (possibly none) with email_sent initially false, and every
returned notice comes from a failing row. -/
theorem C6_detect_failures (marks : List MarkRecord) (subs : List (Int × SubjectDefinition))
    (students : List Student) (f : FailureFilters) :
    (detectFailures marks subs students f).length
      = (marks.filter (failingMark subs students f)).length
    ∧ (∀ m ∈ marks, ∀ s st,
        lookupSubject subs m.subject_id = some s →
        findStudent students m.student_id = some st →
        matchesFilters f st m = true →
        m.marks_obtained < s.pass_marks →
        failureNotice st s m ∈ detectFailures marks subs students f
          ∧ (failureNotice st s m).parent_email = st.parent_email
          ∧ (failureNotice st s m).email_sent = false)
    ∧ (∀ n ∈ detectFailures marks subs students f,
        ∃ m ∈ marks, failingMark subs students f m = true
          ∧ ∃ s st, lookupSubject subs m.subject_id = some s
              ∧ findStudent students m.student_id = some st
              ∧ n = failureNotice st s m) := by
  refine ⟨detectFailures_length marks subs students f, ?_, ?_⟩
  · intro m hm s st hls hfs hmf hlt
    refine ⟨?_, rfl, rfl⟩
    apply List.mem_filterMap.mpr
    refine ⟨m, hm, ?_⟩
    unfold noticeFor
    simp [hls, hfs, hmf, hlt]
  · intro n hn
    obtain ⟨m, hm, hnm⟩ := List.mem_filterMap.mp hn
    refine ⟨m, hm, ?_, ?_⟩
    · rw [← noticeFor_isSome subs students f m, hnm]
      rfl
    · unfold noticeFor at hnm
      cases hls : lookupSubject subs m.subject_id with
      | none => simp [hls] at hnm
      | some s =>
        cases hfs : findStudent students m.student_id with
        | none => simp [hls, hfs] at hnm
        | some st =>
          simp only [hls, hfs] at hnm
          by_cases hcb : (matchesFilters f st m
              && decide (m.marks_obtained < s.pass_marks)) = true
          · rw [if_pos hcb] at hnm
            exact ⟨s, st, rfl, rfl, (Option.some.inj hnm).symm⟩
          · rw [if_neg hcb] at hnm
            exact absurd hnm (by simp)

/-- C7: a student with zero marks matching the requested exam type is
excluded from the class report entirely — removing such a student
changes neither the included-students list nor the built report, and in
particular neither total_students nor failed_students counts them. -/
theorem C7_no_data_excluded (cn sec et : String) (l1 l2 : List Student) (s : Student)
    (marks : List MarkRecord) (subs : List (Int × SubjectDefinition))
    (h : hasDataFor marks et s = false) :
    includedStudents (l1 ++ s :: l2) marks et = includedStudents (l1 ++ l2) marks et
    ∧ buildClassReport cn sec et (l1 ++ s :: l2) marks subs
        = buildClassReport cn sec et (l1 ++ l2) marks subs
    ∧ ∀ c, buildClassReport cn sec et (l1 ++ s :: l2) marks subs = Except.ok c →
        c.total_students = (includedStudents (l1 ++ l2) marks et).length := by
  have hinc : includedStudents (l1 ++ s :: l2) marks et
      = includedStudents (l1 ++ l2) marks et := by
    unfold includedStudents
    simp [List.filter_append, List.filter_cons, h]
  have hbuild : buildClassReport cn sec et (l1 ++ s :: l2) marks subs
      = buildClassReport cn sec et (l1 ++ l2) marks subs := by
    unfold buildClassReport classPairs
    rw [hinc]
  refine ⟨hinc, hbuild, ?_⟩
  intro c hc
  obtain ⟨pairs, hp, rfl⟩ := buildClassReport_shape hc
  rw [mkClassReport_total]
  unfold classPairs at hp
  rw [hinc] at hp
  exact mapME_ok_length hp

/-- C7 witness: removing the markless student Bala from the one-mark
class leaves the class report unchanged, and Bala is not counted. -/
theorem C7_witness :
    includedStudents ([stA] ++ stB :: []) [mA] "Final"
        = includedStudents ([stA] ++ []) [mA] "Final"
    ∧ buildClassReport "10A" "A" "Final" ([stA] ++ stB :: []) [mA] [(1, math)]
        = buildClassReport "10A" "A" "Final" ([stA] ++ []) [mA] [(1, math)]
    ∧ ∀ c, buildClassReport "10A" "A" "Final" ([stA] ++ stB :: []) [mA] [(1, math)]
          = Except.ok c →
        c.total_students = (includedStudents ([stA] ++ []) [mA] "Final").length :=
  C7_no_data_excluded "10A" "A" "Final" [stA] [] stB [mA] [(1, math)]
    (by with_unfolding_all decide)

/-- C8: the top performers of a built class report are the stable sort
of the included (student, report) pairs by percentage descending, ties
by total marks descending, then roll number ascending, truncated to the
first 5 — their count is min 5 total_students, and the emitted list is
sorted by that ranking order (ties beyond the cutoff are excluded by
the truncation). -/
theorem C8_top_performers (cn sec et : String) (students : List Student)
    (marks : List MarkRecord) (subs : List (Int × SubjectDefinition))
    (c : ClassReportM) (pairs : List (Student × StudentReportM))
    (hc : buildClassReport cn sec et students marks subs = Except.ok c)
    (hp : classPairs et students marks subs = Except.ok pairs) :
    c.top_performers = ((List.insertionSort rankRel pairs).take 5).map mkPerformer
    ∧ c.top_performers.length = min 5 c.total_students
    ∧ c.total_students = pairs.length
    ∧ List.Sorted perfRel c.top_performers := by
  obtain ⟨pairs2, hp2, rfl⟩ := buildClassReport_shape hc
  have hpp : pairs2 = pairs := Except.ok.inj (hp2.symm.trans hp)
  subst hpp
  refine ⟨rfl, ?_, rfl, ?_⟩
  · rw [mkClassReport_top, mkClassReport_total]
    unfold topPerformers
    rw [List.length_map, List.length_take,
      (List.perm_insertionSort rankRel pairs2).length_eq]
  · rw [mkClassReport_top]
    unfold topPerformers
    have hs : List.Sorted rankRel (List.insertionSort rankRel pairs2) :=
      List.sorted_insertionSort rankRel pairs2
    have ht : List.Sorted rankRel ((List.insertionSort rankRel pairs2).take 5) :=
      List.Pairwise.sublist (List.take_sublist 5 _) hs
    unfold List.Sorted at ht ⊢
    apply List.pairwise_map.mpr
    apply ht.imp
    intro a b hab
    exact hab

/-- C8 witness: the one-student class has exactly its one student as
top performer, in sorted order. -/
theorem C8_witness :
    classA.top_performers = ((List.insertionSort rankRel demoPairsA).take 5).map mkPerformer
    ∧ classA.top_performers.length = min 5 classA.total_students
    ∧ classA.total_students = demoPairsA.length
    ∧ List.Sorted perfRel classA.top_performers :=
  C8_top_performers "10A" "A" "Final" [stA] [mA] [(1, math)] classA demoPairsA
    (by with_unfolding_all decide) (by with_unfolding_all decide)

end MarkTracker
